import Mathlib

/-!
Shallow embedding of the SportHub backend authentication core
(src/backend/app: services/auth.py, reposiroty/users.py, routers/auth.py,
core/security.py, core/deps.py, schemas/auth_schemas.py).

Modelling conventions:
* Time is a `Nat` of seconds (python-jose timestamps have second
  granularity: `timegm(datetime.utcnow().utctimetuple())`).
* A signed JWT is represented by its payload together with the signing
  key; `jwt.encode` is deterministic for a fixed payload and key, so
  string equality of encoded tokens coincides with equality of
  (payload, key) pairs.
* `jwt.decode` (python-jose) succeeds when the key matches and
  `exp < now` does not hold, i.e. when `now ≤ exp` (leeway 0).
* `async def` functions are embedded as plain functions; an `await` of a
  value that is not awaitable (the sync redis client calls in
  `Auth.get_current_user`) is embedded as a `crash` outcome, as are
  uncaught Python exceptions (`AttributeError` on `None`, `KeyError`).
  Python evaluates the awaited expression first, so the synchronous
  `cache.set(...)` call itself executes and its effect on the cache is
  kept; only the subsequent await of the returned bool raises.
* Each route returns the HTTP outcome paired with the database state
  after the call, since some error paths mutate the store first.
-/

/-- Payload dictionary carried inside a JWT produced by this code base:
`sub`, `iat`, `exp` and (for access/refresh tokens) `scope`.
Email-verification tokens from `create_email_token` carry no scope,
hence `scope : Option String`. -/
structure Payload where
  sub : String
  iat : Nat
  exp : Nat
  scope : Option String
deriving DecidableEq, Repr

/-- An encoded JWT: its payload plus the key it was signed with
(`jwt.encode(to_encode, SECRET_KEY, algorithm=ALGORITHM)`). -/
structure Token where
  payload : Payload
  key : String
deriving DecidableEq, Repr

/-- The process-wide signing secret `config.SECRET_KEY_JWT`
(opaque startup configuration). -/
def SECRET_KEY_JWT : String := "secret-key-jwt"

/-- `jose.jwt.encode(payload, key, algorithm)`. -/
def jwtEncode (p : Payload) (key : String) : Token := ⟨p, key⟩

/-- `jose.jwt.decode(token, key, algorithms)`: `none` models a raised
`JWTError` (bad signature or expired); otherwise the payload is
returned.  Valid iff the key matches and `now ≤ exp`. -/
def jwtDecode (t : Token) (key : String) (now : Nat) : Option Payload :=
  if t.key = key ∧ now ≤ t.payload.exp then some t.payload else none

/-- Result of one request-handler call: a successful JSON value, an
`HTTPException(status_code, detail)`, or an unhandled Python exception
(`crash`). -/
inductive Outcome (α : Type) where
  | ok : α → Outcome α
  | httpError : Nat → String → Outcome α
  | crash : String → Outcome α
deriving DecidableEq, Repr

/-- Whether the handler returned successfully. -/
def Outcome.isOk {α : Type} : Outcome α → Bool
  | .ok _ => true
  | _ => false

namespace messages

/-- Modelled from the spec: the constants module `app/conf/messages.py`
is imported by `routers/auth.py` but is not under src/.  Spec section 7
states missing-email and bad-password are distinguishable internally,
so the two login messages are modelled as distinct strings. -/
def INVALID_EMAIL : String := "Invalid email"

/-- Modelled from the spec: constant from the missing
`app/conf/messages.py`; the login failure message for a wrong password,
distinct from the missing-email message (spec section 7). -/
def INVALID_PASSWORD : String := "Invalid password"

/-- Modelled from the spec: constant from the missing
`app/conf/messages.py`; login failure for an unconfirmed account. -/
def NOT_CONFIRMED : String := "Email not confirmed"

/-- Modelled from the spec: constant from the missing
`app/conf/messages.py`; signup failure for a duplicate account. -/
def ACCOUNT_EXISTS : String := "Account already exists"

/-- Modelled from the spec: constant from the missing
`app/conf/messages.py`; email-confirmation failure for unknown user. -/
def VERIFICATION_ERROR : String := "Verification error"

/-- Modelled from the spec: constant from the missing
`app/conf/messages.py`; the already-confirmed signal returned by the
confirmation and request-email routes. -/
def EMAIL_CONFIRMED_ERROR : String := "Your email is already confirmed"

/-- Modelled from the spec: constant from the missing
`app/conf/messages.py`; success message of the confirmation route. -/
def EMAIL_CONFIRMED : String := "Email confirmed"

/-- Modelled from the spec: constant from the missing
`app/conf/messages.py`; response of the request-email route. -/
def CHECK_EMAIL : String := "Check your email for confirmation"

end messages

/-- Row of the `users` table (`app/entity/models.py`), restricted to the
fields the authentication flows read or write.  `refresh_token` stores
the encoded refresh JWT (nullable). -/
structure User where
  id : Nat
  username : String
  email : String
  password : String
  avatar : Option String
  refresh_token : Option Token
  confirmed : Bool
deriving DecidableEq, Repr

/-- The users table.  The `email` column is declared unique. -/
abbrev DB := List User

/-- `reposiroty/users.py get_user_by_email`:
`select(User).filter_by(email=email)` then `scalar_one_or_none()`. -/
def get_user_by_email (email : String) (db : DB) : Option User :=
  db.find? (fun u => u.email == email)

/-- `reposiroty/users.py update_token`: sets `user.refresh_token = token`
on the fetched row (identified here by its unique email) and commits. -/
def update_token (user : User) (token : Option Token) (db : DB) : DB :=
  db.map (fun u => if u.email == user.email then { u with refresh_token := token } else u)

/-- `reposiroty/users.py confirmed_email`: re-fetches the user by email,
sets `confirmed = True`, commits.  Dereferencing a missing user
(`user.confirmed = True` on `None`) would crash; the route guards this. -/
def repo_confirmed_email (email : String) (db : DB) : DB :=
  db.map (fun u => if u.email == email then { u with confirmed := true } else u)

/-- Password hashing collaborator (`passlib` bcrypt context), modelled as
an injective tagging of the plaintext. -/
def get_password_hash (password : String) : String :=
  "bcrypt-hash:" ++ password

/-- `pwd_context.verify(plain, hashed)` for hashes produced by
`get_password_hash`. -/
def verify_password (plain hashed : String) : Bool :=
  hashed == get_password_hash plain

/-- `Auth.create_access_token` (services/auth.py): copies the data,
sets `iat = now`, `exp = now + expires_delta seconds` when
`expires_delta` is truthy (Python: `if expires_delta:` — `None` and `0`
fall to the default) else `now + 15 minutes`, and tags
`scope = access_token`. -/
def create_access_token (now : Nat) (sub : String) (expires_delta : Option Nat) : Token :=
  let expire :=
    match expires_delta with
    | some d => if d = 0 then now + 15 * 60 else now + d
    | none => now + 15 * 60
  jwtEncode ⟨sub, now, expire, some "access_token"⟩ SECRET_KEY_JWT

/-- `Auth.create_refresh_token` (services/auth.py): default lifetime
7 days, `scope = refresh_token`. -/
def create_refresh_token (now : Nat) (sub : String) (expires_delta : Option Nat) : Token :=
  let expire :=
    match expires_delta with
    | some d => if d = 0 then now + 7 * 24 * 60 * 60 else now + d
    | none => now + 7 * 24 * 60 * 60
  jwtEncode ⟨sub, now, expire, some "refresh_token"⟩ SECRET_KEY_JWT

/-- `Auth.create_email_token` (services/auth.py): lifetime 1 day, no
scope claim. -/
def create_email_token (now : Nat) (sub : String) : Token :=
  jwtEncode ⟨sub, now, now + 24 * 60 * 60, none⟩ SECRET_KEY_JWT

/-- `Auth.decode_form_refresh_token`: decode (JWTError is caught and
re-raised as 401), then check the scope claim.  A payload without a
`scope` key raises an uncaught `KeyError`. -/
def decode_form_refresh_token (t : Token) (now : Nat) : Outcome String :=
  match jwtDecode t SECRET_KEY_JWT now with
  | none => .httpError 401 "Could not validate credentials"
  | some payload =>
    match payload.scope with
    | none => .crash "KeyError: scope"
    | some s =>
      if s = "refresh_token" then .ok payload.sub
      else .httpError 401 "Invalid scope for token"

/-- `Auth.get_email_from_token`: decode; on JWTError reply 422. -/
def get_email_from_token (t : Token) (now : Nat) : Outcome String :=
  match jwtDecode t SECRET_KEY_JWT now with
  | none => .httpError 422 "Invalid token for email verification"
  | some payload => .ok payload.sub

example : decode_form_refresh_token (create_refresh_token 5 "a@b.com" none) 10
    = .ok "a@b.com" := by decide

example : decode_form_refresh_token (create_access_token 5 "a@b.com" none) 10
    = .httpError 401 "Invalid scope for token" := by decide

example : get_email_from_token (create_email_token 5 "a@b.com") (5 + 24 * 60 * 60 + 1)
    = .httpError 422 "Invalid token for email verification" := by decide

/-- The redis Identity Cache: association of key to the pickled user and
an optional absolute expiry instant (`none` when no TTL was set — redis
SET without expiry persists and also discards any previous TTL). -/
abbrev Cache := List (String × User × Option Nat)

/-- `self.cache.get(user_hash)`: the stored bytes if the key exists and
its TTL (when one is set) has not elapsed, else `None`. -/
def cache_get (c : Cache) (key : String) (now : Nat) : Option User :=
  match c.find? (fun e => e.1 == key) with
  | some e =>
    match e.2.2 with
    | some expireAt => if now < expireAt then some e.2.1 else none
    | none => some e.2.1
  | none => none

/-- `cache.set(key, pickle.dumps(user))`: stores the entry with no TTL.
In `Auth.get_current_user` the following `cache.expire(key, 300)` is
never reached (the await of the SET result raises first), so the entry
keeps no expiry. -/
def cache_set (c : Cache) (key : String) (u : User) : Cache :=
  (key, u, none) :: c.filter (fun e => e.1 != key)

/-- `Auth.get_current_user` (services/auth.py): decode the bearer token
(401 on JWTError, wrong scope, or missing subject), then resolve the
identity through the cache.  On a cache miss with the user present, the
code executes `await self.cache.set(...)` on the synchronous
`redis.Redis` client: the SET itself runs (caching the pickled user
with no TTL), then awaiting the returned `bool` raises an uncaught
`TypeError`, so the branch crashes after mutating the cache and before
`cache.expire` or the return. -/
def auth_get_current_user (t : Token) (now : Nat) (cache : Cache) (db : DB) :
    Outcome User × Cache :=
  match jwtDecode t SECRET_KEY_JWT now with
  | none => (.httpError 401 "Could not validate credentials", cache)
  | some payload =>
    match payload.scope with
    | none => (.crash "KeyError: scope", cache)
    | some s =>
      if s = "access_token" then
        match cache_get cache payload.sub now with
        | some u => (.ok u, cache)
        | none =>
          match get_user_by_email payload.sub db with
          | none => (.httpError 401 "Could not validate credentials", cache)
          | some u =>
            (.crash "TypeError: object bool cannot be used in await expression",
             cache_set cache payload.sub u)
      else (.httpError 401 "Could not validate credentials", cache)

/-- `core/security.py decode_jwt`: plain decode with the shared secret;
raises `ValueError` (here `none`) on JWTError.  No scope handling. -/
def decode_jwt (t : Token) (now : Nat) : Option Payload :=
  jwtDecode t SECRET_KEY_JWT now

/-- `core/deps.py get_current_user`: decode via `decode_jwt` (401 on
`ValueError`), reject a falsy subject, look the user up by email.
No scope check of any kind. -/
def deps_get_current_user (t : Token) (now : Nat) (db : DB) : Outcome User :=
  match decode_jwt t now with
  | none => .httpError 401 "Invalid or expired token"
  | some payload =>
    if payload.sub = "" then .httpError 401 "Invalid token"
    else
      match get_user_by_email payload.sub db with
      | none => .httpError 401 "User not found"
      | some user => .ok user

/-- Response body of login and refresh. -/
structure TokenPair where
  access_token : Token
  refresh_token : Token
  token_type : String
deriving DecidableEq, Repr

/-- `routers/auth.py refresh_token` (GET /auth/refresh_token): decode the
presented refresh token, fetch the user by the decoded email
(dereferencing `user.refresh_token` crashes when no user exists), null
the stored token and reply 401 on mismatch, otherwise rotate: issue a
fresh pair and persist the new refresh token. -/
def refresh_route (cred : Token) (now : Nat) (db : DB) : Outcome TokenPair × DB :=
  match decode_form_refresh_token cred now with
  | .httpError c d => (.httpError c d, db)
  | .crash m => (.crash m, db)
  | .ok email =>
    match get_user_by_email email db with
    | none => (.crash "AttributeError: NoneType object has no attribute refresh_token", db)
    | some user =>
      if user.refresh_token ≠ some cred then
        (.httpError 401 "Invalid refresh token", update_token user none db)
      else
        let access_token := create_access_token now email none
        let new_refresh := create_refresh_token now email none
        (.ok ⟨access_token, new_refresh, "bearer"⟩, update_token user (some new_refresh) db)

/-- `routers/auth.py login` (POST /auth/login): 401 with
`INVALID_EMAIL` when no record, `NOT_CONFIRMED` when unconfirmed,
`INVALID_PASSWORD` when the hash check fails; otherwise issue a pair and
persist the refresh token. -/
def login_route (username password : String) (now : Nat) (db : DB) :
    Outcome TokenPair × DB :=
  match get_user_by_email username db with
  | none => (.httpError 401 messages.INVALID_EMAIL, db)
  | some user =>
    if user.confirmed = false then (.httpError 401 messages.NOT_CONFIRMED, db)
    else if verify_password password user.password = false then
      (.httpError 401 messages.INVALID_PASSWORD, db)
    else
      let access_token := create_access_token now user.email none
      let new_refresh := create_refresh_token now user.email none
      (.ok ⟨access_token, new_refresh, "bearer"⟩, update_token user (some new_refresh) db)

/-- Raw signup request body before validation. -/
structure SignupBody where
  username : String
  email : String
  password : String
deriving DecidableEq, Repr

/-- `schemas/auth_schemas.py UserSchema` field validation, performed by
the framework before the handler runs: `username` at most 150
characters, `email` well-formed (`EmailStr`, abstracted as a predicate
parameter), `password` between 6 and 8 characters. -/
def userSchemaValid (emailOk : String → Bool) (b : SignupBody) : Bool :=
  b.username.length ≤ 150 && emailOk b.email &&
    6 ≤ b.password.length && b.password.length ≤ 8

/-- `routers/auth.py signup` (POST /auth/signup): the framework rejects
an invalid body with 422 before the handler; then 409 on duplicate
email; otherwise hash the password and insert the new row (avatar from
the external Gravatar collaborator, confirmed false, no refresh token). -/
def signup_route (emailOk : String → Bool) (b : SignupBody) (db : DB)
    (newId : Nat) (avatar : Option String) : Outcome User × DB :=
  if userSchemaValid emailOk b = false then
    (.httpError 422 "Unprocessable Entity", db)
  else
    match get_user_by_email b.email db with
    | some _ => (.httpError 409 messages.ACCOUNT_EXISTS, db)
    | none =>
      let newUser : User :=
        ⟨newId, b.username, b.email, get_password_hash b.password, avatar, none, false⟩
      (.ok newUser, db ++ [newUser])

/-- `routers/auth.py confirmed_email` (GET /auth/confirmed_email): decode
the verification token (422 on JWTError), 400 when no user, the
already-confirmed message when `user.confirmed`, else set the flag. -/
def confirmed_email_route (t : Token) (now : Nat) (db : DB) : Outcome String × DB :=
  match get_email_from_token t now with
  | .httpError c d => (.httpError c d, db)
  | .crash m => (.crash m, db)
  | .ok email =>
    match get_user_by_email email db with
    | none => (.httpError 400 messages.VERIFICATION_ERROR, db)
    | some user =>
      if user.confirmed then (.ok messages.EMAIL_CONFIRMED_ERROR, db)
      else (.ok messages.EMAIL_CONFIRMED, repo_confirmed_email email db)

/-- `routers/auth.py request_email` (POST /auth/request_email): fetches
the user, then reads `user.confirmed` BEFORE the `if user:` None-guard —
an unknown email dereferences `None` and crashes. -/
def request_email_route (email : String) (db : DB) : Outcome String × DB :=
  match get_user_by_email email db with
  | none => (.crash "AttributeError: NoneType object has no attribute confirmed", db)
  | some user =>
    if user.confirmed then (.ok messages.EMAIL_CONFIRMED_ERROR, db)
    else (.ok messages.CHECK_EMAIL, db)

/-! Helper lemmas about lookups after row updates. -/

lemma get_user_by_email_update_token (e : String) (u : User) (v : Option Token) (db : DB) :
    get_user_by_email e (update_token u v db) =
      (get_user_by_email e db).map
        (fun w => if w.email == u.email then { w with refresh_token := v } else w) := by
  unfold get_user_by_email update_token
  rw [List.find?_map]
  have hp : ((fun w : User => w.email == e) ∘
      (fun w : User => if w.email == u.email then { w with refresh_token := v } else w))
      = (fun w : User => w.email == e) := by
    funext w
    by_cases h : (w.email == u.email) = true <;> simp [Function.comp, h]
  rw [hp]

lemma get_update_found (e : String) (w : User) (v : Option Token) (db : DB)
    (h : get_user_by_email e db = some w) :
    get_user_by_email e (update_token w v db) = some { w with refresh_token := v } := by
  rw [get_user_by_email_update_token, h]
  simp

lemma get_user_by_email_repo_confirmed (e e2 : String) (db : DB) :
    get_user_by_email e2 (repo_confirmed_email e db) =
      (get_user_by_email e2 db).map
        (fun w => if w.email == e then { w with confirmed := true } else w) := by
  unfold get_user_by_email repo_confirmed_email
  rw [List.find?_map]
  have hp : ((fun w : User => w.email == e2) ∘
      (fun w : User => if w.email == e then { w with confirmed := true } else w))
      = (fun w : User => w.email == e2) := by
    funext w
    by_cases h : (w.email == e) = true <;> simp [Function.comp, h]
  rw [hp]

lemma decode_refresh_created (t now : Nat) (s : String) (h : now ≤ t + 7 * 24 * 60 * 60) :
    decode_form_refresh_token (create_refresh_token t s none) now = .ok s := by
  simp [decode_form_refresh_token, create_refresh_token, jwtEncode, jwtDecode, h]

/-! Claim theorems. -/

/-- Claim C7: decoding a token produced by the corresponding issue
operation (access or refresh scope), at any time before its expiry,
succeeds and yields the same subject and the same scope that were
issued. -/
theorem C7_issue_decode_round_trip (now d t : Nat) (sub : String)
    (hd : 0 < d) (ht : t < now + d) :
    jwtDecode (create_access_token now sub (some d)) SECRET_KEY_JWT t
      = some ⟨sub, now, now + d, some "access_token"⟩ ∧
    jwtDecode (create_refresh_token now sub (some d)) SECRET_KEY_JWT t
      = some ⟨sub, now, now + d, some "refresh_token"⟩ := by
  have hd0 : d ≠ 0 := Nat.pos_iff_ne_zero.mp hd
  constructor <;>
    simp [create_access_token, create_refresh_token, jwtEncode, jwtDecode, hd0,
      Nat.le_of_lt ht]

/-- Witness for C7 at sub a@b.com, ttl 60 seconds, decode time 130. -/
theorem C7_issue_decode_round_trip_wit :
    jwtDecode (create_access_token 100 "a@b.com" (some 60)) SECRET_KEY_JWT 130
      = some ⟨"a@b.com", 100, 100 + 60, some "access_token"⟩ ∧
    jwtDecode (create_refresh_token 100 "a@b.com" (some 60)) SECRET_KEY_JWT 130
      = some ⟨"a@b.com", 100, 100 + 60, some "refresh_token"⟩ :=
  C7_issue_decode_round_trip 100 60 130 "a@b.com" (by decide) (by decide)

/-- Claim C10: the signup schema accepts a password only if its length is
between 6 and 8 characters inclusive, and a body with a password outside
that range is rejected with 422 at input validation, before any user is
created (the database is returned unchanged). -/
theorem C10_password_length_validation (emailOk : String → Bool) (b : SignupBody)
    (db : DB) (newId : Nat) (avatar : Option String) :
    (userSchemaValid emailOk b = true →
      6 ≤ b.password.length ∧ b.password.length ≤ 8) ∧
    (b.password.length < 6 ∨ 8 < b.password.length →
      signup_route emailOk b db newId avatar
        = (.httpError 422 "Unprocessable Entity", db)) := by
  have hval : userSchemaValid emailOk b = true →
      6 ≤ b.password.length ∧ b.password.length ≤ 8 := by
    intro h
    simp only [userSchemaValid, Bool.and_eq_true, decide_eq_true_eq] at h
    exact ⟨by tauto, by tauto⟩
  refine ⟨hval, ?_⟩
  intro h
  cases hv : userSchemaValid emailOk b with
  | false => simp [signup_route, hv]
  | true =>
    exfalso
    have := hval hv
    rcases h with h | h <;> omega

/-- Witness for C10: a 3-character password is rejected with 422 and no
row is inserted. -/
theorem C10_password_length_validation_wit :
    signup_route (fun _ => true) ⟨"u", "u@x.com", "abc"⟩ [] 1 none
      = (.httpError 422 "Unprocessable Entity", []) :=
  (C10_password_length_validation (fun _ => true) ⟨"u", "u@x.com", "abc"⟩ [] 1 none).2
    (Or.inl (by decide))

/-- Claim C5 (code bug): a validly signed, unexpired refresh-scoped token
whose subject has no user record makes the refresh route dereference
`None` (`user.refresh_token` with `user = None`): an unhandled
`AttributeError`, not the client-facing `InvalidToken` the spec
requires. -/
theorem C5_refresh_unknown_user_crashes (t : Token) (now : Nat) (db : DB)
    (hk : t.key = SECRET_KEY_JWT) (hs : t.payload.scope = some "refresh_token")
    (hexp : now ≤ t.payload.exp)
    (hu : get_user_by_email t.payload.sub db = none) :
    refresh_route t now db
      = (.crash "AttributeError: NoneType object has no attribute refresh_token", db) := by
  simp [refresh_route, decode_form_refresh_token, jwtDecode, hk, hs, hexp, hu]

/-- Witness for C5: a fresh refresh token for a subject absent from an
empty store crashes the refresh route. -/
theorem C5_refresh_unknown_user_crashes_wit :
    refresh_route (create_refresh_token 0 "ghost@x.com" none) 10 []
      = (.crash "AttributeError: NoneType object has no attribute refresh_token", []) :=
  C5_refresh_unknown_user_crashes (create_refresh_token 0 "ghost@x.com" none) 10 []
    rfl rfl (by decide) rfl

/-- Claim C8 (code bug): the request-email route reads `user.confirmed`
before its `if user:` guard, so an unknown email raises an unhandled
`AttributeError` instead of completing with a 200 message. -/
theorem C8_request_email_unknown_user_crashes (email : String) (db : DB)
    (hu : get_user_by_email email db = none) :
    request_email_route email db
      = (.crash "AttributeError: NoneType object has no attribute confirmed", db) := by
  simp [request_email_route, hu]

/-- Witness for C8: an unknown email against an empty store crashes the
request-email route. -/
theorem C8_request_email_unknown_user_crashes_wit :
    request_email_route "nobody@x.com" []
      = (.crash "AttributeError: NoneType object has no attribute confirmed", []) :=
  C8_request_email_unknown_user_crashes "nobody@x.com" [] rfl

/-- Claim C6: for a user with a valid email-verification token, a second
call to the confirmation route (the stored record then has
`confirmed = true`) returns the already-confirmed message, does not
error, and leaves the store unchanged. -/
theorem C6_confirm_email_idempotent (t : Token) (now1 now2 : Nat) (db : DB) (user : User)
    (hk : t.key = SECRET_KEY_JWT)
    (h1 : now1 ≤ t.payload.exp) (h2 : now2 ≤ t.payload.exp)
    (hu : get_user_by_email t.payload.sub db = some user) :
    confirmed_email_route t now2 (confirmed_email_route t now1 db).2
      = (.ok messages.EMAIL_CONFIRMED_ERROR, (confirmed_email_route t now1 db).2) := by
  have hu2 : db.find? (fun u => u.email == t.payload.sub) = some user := hu
  have hue : user.email = t.payload.sub := by
    simpa using List.find?_some hu2
  by_cases hc : user.confirmed
  · simp [confirmed_email_route, get_email_from_token, jwtDecode, hk, h1, h2, hu, hc]
  · simp [confirmed_email_route, get_email_from_token, jwtDecode, hk, h1, h2, hu, hc,
      get_user_by_email_repo_confirmed, hue]

/-- Witness for C6: confirming alice at time 1 and again at time 2 —
the second call reports already-confirmed and keeps the store of the
first call. -/
theorem C6_confirm_email_idempotent_wit :
    confirmed_email_route (create_email_token 0 "a@b.com") 2
        (confirmed_email_route (create_email_token 0 "a@b.com") 1
          [⟨1, "alice", "a@b.com", "h", none, none, false⟩]).2
      = (.ok messages.EMAIL_CONFIRMED_ERROR,
         (confirmed_email_route (create_email_token 0 "a@b.com") 1
           [⟨1, "alice", "a@b.com", "h", none, none, false⟩]).2) :=
  C6_confirm_email_idempotent (create_email_token 0 "a@b.com") 1 2
    [⟨1, "alice", "a@b.com", "h", none, none, false⟩]
    ⟨1, "alice", "a@b.com", "h", none, none, false⟩
    rfl (by decide) (by decide) (by decide)

/-- Claim C3 is refuted: login with an unknown email and login with a
known confirmed user but wrong password both answer 401, but with
different detail messages, so the caller can tell them apart. -/
theorem C3_login_enumeration_cex :
    (login_route "nobody@x.com" "anything" 0
        [⟨1, "alice", "realuser@x.com", get_password_hash "realpass", none, none, true⟩]).1
      = .httpError 401 messages.INVALID_EMAIL ∧
    (login_route "realuser@x.com" "wrongpassword" 0
        [⟨1, "alice", "realuser@x.com", get_password_hash "realpass", none, none, true⟩]).1
      = .httpError 401 messages.INVALID_PASSWORD ∧
    messages.INVALID_EMAIL ≠ messages.INVALID_PASSWORD := by
  refine ⟨by decide, by decide, by decide⟩

/-- Claim C3 amended: the two login failures share the error kind
(HTTP 401) but carry distinct messages — missing email answers
INVALID_EMAIL, wrong password INVALID_PASSWORD — so the external caller
can distinguish the cases. -/
theorem C3_login_error_kinds (db : DB) (user : User) (missing pw bad : String)
    (now : Nat)
    (hmiss : get_user_by_email missing db = none)
    (hu : get_user_by_email user.email db = some user)
    (hc : user.confirmed = true)
    (hbad : verify_password bad user.password = false) :
    (login_route missing pw now db).1 = .httpError 401 messages.INVALID_EMAIL ∧
    (login_route user.email bad now db).1 = .httpError 401 messages.INVALID_PASSWORD ∧
    messages.INVALID_EMAIL ≠ messages.INVALID_PASSWORD := by
  refine ⟨?_, ?_, by decide⟩
  · simp [login_route, hmiss]
  · simp [login_route, hu, hc, hbad]

/-- Witness for C3 amended, at the concrete store of the counterexample
inputs. -/
theorem C3_login_error_kinds_wit :
    (login_route "nobody@x.com" "anything" 0
        [⟨1, "alice", "realuser@x.com", get_password_hash "realpass", none, none, true⟩]).1
      = .httpError 401 messages.INVALID_EMAIL ∧
    (login_route "realuser@x.com" "wrongpassword" 0
        [⟨1, "alice", "realuser@x.com", get_password_hash "realpass", none, none, true⟩]).1
      = .httpError 401 messages.INVALID_PASSWORD ∧
    messages.INVALID_EMAIL ≠ messages.INVALID_PASSWORD :=
  C3_login_error_kinds
    [⟨1, "alice", "realuser@x.com", get_password_hash "realpass", none, none, true⟩]
    ⟨1, "alice", "realuser@x.com", get_password_hash "realpass", none, none, true⟩
    "nobody@x.com" "anything" "wrongpassword" 0 rfl rfl rfl (by decide)

/-- Claim C9 (code bug): with a valid access token, a cache hit returns
the cached user without touching the store and a cache miss with no user
record answers the credentials error; but on a cache miss with the user
present, the synchronous redis SET caches the pickled user and then the
handler awaits its `bool` result, raising an unhandled `TypeError`: the
request crashes instead of returning, the entry carries no TTL (the
`expire(key, 300)` line is never reached), and the stale entry is served
at every later time. -/
theorem C9_resolve_current_user_cache (t : Token) (now : Nat) (cache : Cache)
    (db : DB)
    (hk : t.key = SECRET_KEY_JWT) (hs : t.payload.scope = some "access_token")
    (hexp : now ≤ t.payload.exp) :
    (∀ u, cache_get cache t.payload.sub now = some u →
      auth_get_current_user t now cache db = (.ok u, cache)) ∧
    (cache_get cache t.payload.sub now = none →
      get_user_by_email t.payload.sub db = none →
      auth_get_current_user t now cache db
        = (.httpError 401 "Could not validate credentials", cache)) ∧
    (∀ u, cache_get cache t.payload.sub now = none →
      get_user_by_email t.payload.sub db = some u →
      auth_get_current_user t now cache db
        = (.crash "TypeError: object bool cannot be used in await expression",
           cache_set cache t.payload.sub u) ∧
      (∀ later, cache_get (cache_set cache t.payload.sub u) t.payload.sub later
        = some u)) := by
  refine ⟨?_, ?_, ?_⟩
  · intro u hhit
    simp [auth_get_current_user, jwtDecode, hk, hs, hexp, hhit]
  · intro hmiss habs
    simp [auth_get_current_user, jwtDecode, hk, hs, hexp, hmiss, habs]
  · intro u hmiss hfound
    refine ⟨?_, ?_⟩
    · simp [auth_get_current_user, jwtDecode, hk, hs, hexp, hmiss, hfound]
    · intro later
      simp [cache_get, cache_set]

/-- Witness for C9: a valid access token, empty cache and a present user
record crash the resolver at the awaited cache write, leaving a cache
entry without TTL that is still served much later. -/
theorem C9_resolve_current_user_cache_wit :
    auth_get_current_user (create_access_token 0 "a@b.com" none) 5 []
        [⟨1, "alice", "a@b.com", "h", none, none, true⟩]
      = (.crash "TypeError: object bool cannot be used in await expression",
         cache_set [] "a@b.com" ⟨1, "alice", "a@b.com", "h", none, none, true⟩) ∧
    cache_get (cache_set [] "a@b.com" ⟨1, "alice", "a@b.com", "h", none, none, true⟩)
        "a@b.com" 1000000000
      = some ⟨1, "alice", "a@b.com", "h", none, none, true⟩ :=
  ⟨((C9_resolve_current_user_cache (create_access_token 0 "a@b.com" none) 5 []
      [⟨1, "alice", "a@b.com", "h", none, none, true⟩]
      rfl rfl (by decide)).2.2
    ⟨1, "alice", "a@b.com", "h", none, none, true⟩ rfl rfl).1,
   ((C9_resolve_current_user_cache (create_access_token 0 "a@b.com" none) 5 []
      [⟨1, "alice", "a@b.com", "h", none, none, true⟩]
      rfl rfl (by decide)).2.2
    ⟨1, "alice", "a@b.com", "h", none, none, true⟩ rfl rfl).2 1000000000⟩

/-- Claim C4 is refuted: the resolver in core/deps.py checks no scope at
all, so a validly signed, unexpired refresh-scoped token whose subject
exists successfully resolves a current user. -/
theorem C4_refresh_token_resolves_user_cex :
    (create_refresh_token 0 "alice@x.com" none).payload.scope ≠ some "access_token" ∧
    deps_get_current_user (create_refresh_token 0 "alice@x.com" none) 10
        [⟨1, "alice", "alice@x.com", "h", none, none, true⟩]
      = .ok ⟨1, "alice", "alice@x.com", "h", none, none, true⟩ := by
  refine ⟨by decide, by decide⟩

/-- Claim C4 amended: the services/auth.py resolver (used by the /users
routes) never returns a user unless the scope claim equals access_token
(wrong scope answers 401; a scope-less payload raises KeyError — still
not a success); the core/deps.py resolver performs no scope check and
does accept refresh tokens. -/
theorem C4_auth_resolver_requires_access_scope (t : Token) (now : Nat)
    (cache : Cache) (db : DB)
    (hs : t.payload.scope ≠ some "access_token") :
    (auth_get_current_user t now cache db).1.isOk = false := by
  unfold auth_get_current_user
  by_cases hv : t.key = SECRET_KEY_JWT ∧ now ≤ t.payload.exp
  · simp only [jwtDecode, if_pos hv]
    cases hsc : t.payload.scope with
    | none => simp [Outcome.isOk]
    | some s =>
      have hne : ¬(s = "access_token") := by
        intro h
        exact hs (by rw [hsc, h])
      simp [Outcome.isOk, hne]
  · simp [jwtDecode, if_neg hv, Outcome.isOk]

/-- Witness for C4 amended: a refresh-scoped token never resolves through
the services/auth.py resolver. -/
theorem C4_auth_resolver_requires_access_scope_wit :
    (auth_get_current_user (create_refresh_token 0 "a@b.com" none) 5 [] []).1.isOk
      = false :=
  C4_auth_resolver_requires_access_scope (create_refresh_token 0 "a@b.com" none) 5 [] []
    (by decide)

/-- Claim C2 is refuted in its at-most-once part: rotating a refresh
token at the same second as its issuance re-issues the byte-identical
token (deterministic jwt encoding, second-granularity timestamps), so
the store again holds the presented value and a replay of that same
token value succeeds a second time. -/
theorem C2_same_second_replay_cex :
    (refresh_route (create_refresh_token 0 "a@b.com" none) 0
        [⟨1, "alice", "a@b.com", "h", none,
          some (create_refresh_token 0 "a@b.com" none), true⟩]).1.isOk = true ∧
    (refresh_route (create_refresh_token 0 "a@b.com" none) 1
        (refresh_route (create_refresh_token 0 "a@b.com" none) 0
          [⟨1, "alice", "a@b.com", "h", none,
            some (create_refresh_token 0 "a@b.com" none), true⟩]).2).1.isOk = true := by
  refine ⟨by decide, by decide⟩

/-- Claim C2 amended: for a validly decoded refresh token whose subject
resolves to a user, (i) a mismatch with the stored token answers 401 and
nulls the stored refresh token, and (ii) when the stored token matches,
the refresh succeeds and any replay of the same token value against the
resulting store answers 401 — provided the rotation happens at a second
other than the presented token's issuance instant `iat`; in the
same-second case the identical token value is re-issued and the replay
succeeds again (the counterexample above). -/
theorem C2_refresh_revocation_and_single_use (t : Token) (db : DB) (user : User)
    (hk : t.key = SECRET_KEY_JWT) (hs : t.payload.scope = some "refresh_token")
    (hu : get_user_by_email t.payload.sub db = some user) :
    (∀ now, now ≤ t.payload.exp → user.refresh_token ≠ some t →
      refresh_route t now db
          = (.httpError 401 "Invalid refresh token", update_token user none db) ∧
      get_user_by_email t.payload.sub (update_token user none db)
          = some { user with refresh_token := none }) ∧
    (∀ now1 now2, now1 ≤ t.payload.exp → now2 ≤ t.payload.exp →
      user.refresh_token = some t → t.payload.iat ≠ now1 →
      (refresh_route t now1 db).1.isOk = true ∧
      (refresh_route t now2 (refresh_route t now1 db).2).1
          = .httpError 401 "Invalid refresh token") := by
  constructor
  · intro now hexp hne
    refine ⟨?_, get_update_found _ _ _ _ hu⟩
    simp [refresh_route, decode_form_refresh_token, jwtDecode, hk, hs, hexp, hu, hne]
  · intro now1 now2 h1 h2 heq hiat
    have hR2ne : create_refresh_token now1 t.payload.sub none ≠ t := by
      intro h
      apply hiat
      have hiat2 := congrArg (fun x => x.payload.iat) h
      simpa [create_refresh_token, jwtEncode] using hiat2.symm
    have hfirst : refresh_route t now1 db
        = (.ok ⟨create_access_token now1 t.payload.sub none,
                create_refresh_token now1 t.payload.sub none, "bearer"⟩,
           update_token user (some (create_refresh_token now1 t.payload.sub none)) db) := by
      simp [refresh_route, decode_form_refresh_token, jwtDecode, hk, hs, h1, hu, heq]
    refine ⟨by rw [hfirst]; rfl, ?_⟩
    rw [hfirst]
    have hu2 : get_user_by_email t.payload.sub
        (update_token user (some (create_refresh_token now1 t.payload.sub none)) db)
        = some { user with
            refresh_token := some (create_refresh_token now1 t.payload.sub none) } :=
      get_update_found _ _ _ _ hu
    simp [refresh_route, decode_form_refresh_token, jwtDecode, hk, hs, h2, hu2, hR2ne]

/-- Witness for C2, replaying a refresh token issued at time 0 after a
successful rotation at time 5. -/
theorem C2_refresh_revocation_and_single_use_wit :
    (refresh_route (create_refresh_token 0 "a@b.com" none) 5
        [⟨1, "alice", "a@b.com", "h", none,
          some (create_refresh_token 0 "a@b.com" none), true⟩]).1.isOk = true ∧
    (refresh_route (create_refresh_token 0 "a@b.com" none) 6
        (refresh_route (create_refresh_token 0 "a@b.com" none) 5
          [⟨1, "alice", "a@b.com", "h", none,
            some (create_refresh_token 0 "a@b.com" none), true⟩]).2).1
      = .httpError 401 "Invalid refresh token" :=
  (C2_refresh_revocation_and_single_use (create_refresh_token 0 "a@b.com" none)
      [⟨1, "alice", "a@b.com", "h", none,
        some (create_refresh_token 0 "a@b.com" none), true⟩]
      ⟨1, "alice", "a@b.com", "h", none,
        some (create_refresh_token 0 "a@b.com" none), true⟩
      rfl rfl rfl).2
    5 6 (by decide) (by decide) rfl (by decide)

/-- Claim C1 is refuted: in the concrete scenario Login at time 0,
Refresh(R1) at time 1 (success), Refresh(R1) again at time 2
(TokenRevoked, which also nulls the stored token), the final
Refresh(R2) at time 3 does NOT succeed — it answers 401 as well. -/
theorem C1_rotation_scenario_cex :
    (refresh_route (create_refresh_token 0 "a@b.com" none) 1
        (login_route "a@b.com" "pw" 0
          [⟨1, "alice", "a@b.com", get_password_hash "pw", none, none, true⟩]).2).1.isOk
      = true ∧
    (refresh_route (create_refresh_token 0 "a@b.com" none) 2
        (refresh_route (create_refresh_token 0 "a@b.com" none) 1
          (login_route "a@b.com" "pw" 0
            [⟨1, "alice", "a@b.com", get_password_hash "pw", none, none, true⟩]).2).2).1
      = .httpError 401 "Invalid refresh token" ∧
    (refresh_route (create_refresh_token 1 "a@b.com" none) 3
        (refresh_route (create_refresh_token 0 "a@b.com" none) 2
          (refresh_route (create_refresh_token 0 "a@b.com" none) 1
            (login_route "a@b.com" "pw" 0
              [⟨1, "alice", "a@b.com", get_password_hash "pw", none, none, true⟩]).2).2).2).1
      = .httpError 401 "Invalid refresh token" := by
  refine ⟨by decide, by decide, by decide⟩

/-- Claim C1 amended: after Login issues R1, Refresh(R1) succeeds and
issues A2/R2; a second Refresh(R1) answers TokenRevoked and nulls the
stored refresh token; because of that side effect the subsequent
Refresh(R2) also answers TokenRevoked instead of succeeding — the user
must log in again. -/
theorem C1_rotation_scenario_amended (user : User) (db : DB) (pw : String)
    (t1 t2 t3 t4 : Nat)
    (hu : get_user_by_email user.email db = some user)
    (hconf : user.confirmed = true)
    (hpw : verify_password pw user.password = true)
    (h12 : t1 < t2) (h2e : t2 ≤ t1 + 7 * 24 * 60 * 60)
    (h3e : t3 ≤ t1 + 7 * 24 * 60 * 60) (h4e : t4 ≤ t2 + 7 * 24 * 60 * 60) :
    (login_route user.email pw t1 db).1
        = .ok ⟨create_access_token t1 user.email none,
               create_refresh_token t1 user.email none, "bearer"⟩ ∧
    (refresh_route (create_refresh_token t1 user.email none) t2
        (login_route user.email pw t1 db).2).1
        = .ok ⟨create_access_token t2 user.email none,
               create_refresh_token t2 user.email none, "bearer"⟩ ∧
    (refresh_route (create_refresh_token t1 user.email none) t3
        (refresh_route (create_refresh_token t1 user.email none) t2
          (login_route user.email pw t1 db).2).2).1
        = .httpError 401 "Invalid refresh token" ∧
    (refresh_route (create_refresh_token t2 user.email none) t4
        (refresh_route (create_refresh_token t1 user.email none) t3
          (refresh_route (create_refresh_token t1 user.email none) t2
            (login_route user.email pw t1 db).2).2).2).1
        = .httpError 401 "Invalid refresh token" := by
  have hR12 : create_refresh_token t2 user.email none
      ≠ create_refresh_token t1 user.email none := by
    intro h
    have hiat := congrArg (fun x => x.payload.iat) h
    simp [create_refresh_token, jwtEncode] at hiat
    omega
  have hlogin : login_route user.email pw t1 db
      = (.ok ⟨create_access_token t1 user.email none,
              create_refresh_token t1 user.email none, "bearer"⟩,
         update_token user (some (create_refresh_token t1 user.email none)) db) := by
    simp [login_route, hu, hconf, hpw]
  have hu1 : get_user_by_email user.email
      (update_token user (some (create_refresh_token t1 user.email none)) db)
      = some { user with
          refresh_token := some (create_refresh_token t1 user.email none) } :=
    get_update_found _ _ _ _ hu
  have hstep2 : refresh_route (create_refresh_token t1 user.email none) t2
      (update_token user (some (create_refresh_token t1 user.email none)) db)
      = (.ok ⟨create_access_token t2 user.email none,
              create_refresh_token t2 user.email none, "bearer"⟩,
         update_token
           { user with
               refresh_token := some (create_refresh_token t1 user.email none) }
           (some (create_refresh_token t2 user.email none))
           (update_token user (some (create_refresh_token t1 user.email none)) db)) := by
    simp [refresh_route, decode_refresh_created _ _ _ h2e, hu1]
  have hu2 : get_user_by_email user.email
      (update_token
        { user with
            refresh_token := some (create_refresh_token t1 user.email none) }
        (some (create_refresh_token t2 user.email none))
        (update_token user (some (create_refresh_token t1 user.email none)) db))
      = some { user with
          refresh_token := some (create_refresh_token t2 user.email none) } :=
    get_update_found _ _ _ _ hu1
  have hstep3 : refresh_route (create_refresh_token t1 user.email none) t3
      (update_token
        { user with
            refresh_token := some (create_refresh_token t1 user.email none) }
        (some (create_refresh_token t2 user.email none))
        (update_token user (some (create_refresh_token t1 user.email none)) db))
      = (.httpError 401 "Invalid refresh token",
         update_token
           { user with
               refresh_token := some (create_refresh_token t2 user.email none) }
           none
           (update_token
             { user with
                 refresh_token := some (create_refresh_token t1 user.email none) }
             (some (create_refresh_token t2 user.email none))
             (update_token user (some (create_refresh_token t1 user.email none)) db))) := by
    simp [refresh_route, decode_refresh_created _ _ _ h3e, hu2, hR12]
  have hu3 : get_user_by_email user.email
      (update_token
        { user with
            refresh_token := some (create_refresh_token t2 user.email none) }
        none
        (update_token
          { user with
              refresh_token := some (create_refresh_token t1 user.email none) }
          (some (create_refresh_token t2 user.email none))
          (update_token user (some (create_refresh_token t1 user.email none)) db)))
      = some { user with refresh_token := none } :=
    get_update_found _ _ _ _ hu2
  refine ⟨by rw [hlogin], ?_, ?_, ?_⟩
  · rw [hlogin, hstep2]
  · rw [hlogin, hstep2, hstep3]
  · rw [hlogin, hstep2, hstep3]
    simp [refresh_route, decode_refresh_created _ _ _ h4e, hu3]

/-- Witness for C1 amended, at the concrete scenario of the
counterexample (times 0, 1, 2, 3). -/
theorem C1_rotation_scenario_amended_wit :
    (login_route "a@b.com" "pw" 0
        [⟨1, "alice", "a@b.com", get_password_hash "pw", none, none, true⟩]).1
        = .ok ⟨create_access_token 0 "a@b.com" none,
               create_refresh_token 0 "a@b.com" none, "bearer"⟩ ∧
    (refresh_route (create_refresh_token 0 "a@b.com" none) 1
        (login_route "a@b.com" "pw" 0
          [⟨1, "alice", "a@b.com", get_password_hash "pw", none, none, true⟩]).2).1
        = .ok ⟨create_access_token 1 "a@b.com" none,
               create_refresh_token 1 "a@b.com" none, "bearer"⟩ ∧
    (refresh_route (create_refresh_token 0 "a@b.com" none) 2
        (refresh_route (create_refresh_token 0 "a@b.com" none) 1
          (login_route "a@b.com" "pw" 0
            [⟨1, "alice", "a@b.com", get_password_hash "pw", none, none, true⟩]).2).2).1
        = .httpError 401 "Invalid refresh token" ∧
    (refresh_route (create_refresh_token 1 "a@b.com" none) 3
        (refresh_route (create_refresh_token 0 "a@b.com" none) 2
          (refresh_route (create_refresh_token 0 "a@b.com" none) 1
            (login_route "a@b.com" "pw" 0
              [⟨1, "alice", "a@b.com", get_password_hash "pw", none, none, true⟩]).2).2).2).1
        = .httpError 401 "Invalid refresh token" :=
  C1_rotation_scenario_amended
    ⟨1, "alice", "a@b.com", get_password_hash "pw", none, none, true⟩
    [⟨1, "alice", "a@b.com", get_password_hash "pw", none, none, true⟩]
    "pw" 0 1 2 3 rfl rfl (by decide) (by decide) (by decide) (by decide) (by decide)

